import Mathlib

/-!
A shallow embedding of the `APIClient` request pipeline of `src/apiClient.ts`
(the current revision of the client; `src/index.ts` is a legacy variant that the
claims do not reference).

Modelling choices:
* Host `Headers` collections are represented by their ordered entry lists
  (`List (String × String)`), which is exactly how the source consumes them
  (`headers.entries()` / iteration of a `Headers` value).
* `TQuery` values (`Record<string, unknown>`) are represented by their ordered
  `Object.entries` lists, with each value already coerced to its host string
  representation (the source interpolates the value into a template literal).
* JSON bodies are an inductive `Json` type; the host JSON encoder is modelled by
  `Json.stringify`, and the fact that the host encoder maps the absent value
  (`undefined`) to the absent value again is modelled by `jsonStringifyOpt`.
* The host transport (`fetch`) is a parameter: a function from the URL and the
  request descriptor to either a thrown value (`Except.error`) or a response
  carrying the status, the `Content-Type` header value, and the outcome that
  awaiting `res.json()` would produce.
* Thrown values are a type parameter `ε`, so preservation of a caught value can
  be stated as equality in `ε`.
-/

/-- HTTP methods accepted by the client (the `method` field of `IAPIOptions`). -/
inductive Method where
  | get
  | post
  | put
  | delete

/-- The transport credentials modes (`RequestInit["credentials"]`). -/
inductive Credentials where
  | omitCred
  | sameOrigin
  | includeCred

/-- A `TQuery` record, as its ordered `Object.entries` list with values already
coerced to strings. -/
abbrev TQuery := List (String × String)

/-- A host `Headers` collection, as its ordered entry list. -/
abbrev THeaders := List (String × String)

/-- JSON values, for request bodies and parsed response bodies. -/
inductive Json where
  | null
  | bool (b : Bool)
  | num (n : Int)
  | str (s : String)
  | arr (elems : List Json)
  | obj (fields : List (String × Json))

mutual

/-- Models the host JSON encoder (`JSON.stringify`) on a defined value. -/
def Json.stringify : Json → String
  | .null => "null"
  | .bool true => "true"
  | .bool false => "false"
  | .num n => toString n
  | .str s => "\"" ++ s ++ "\""
  | .arr elems => "[" ++ Json.stringifyElems elems ++ "]"
  | .obj fields => "\x7b" ++ Json.stringifyFields fields ++ "\x7d"

/-- Comma-separated encoding of array elements. -/
def Json.stringifyElems : List Json → String
  | [] => ""
  | [j] => Json.stringify j
  | j :: rest => Json.stringify j ++ "," ++ Json.stringifyElems rest

/-- Comma-separated encoding of object fields. -/
def Json.stringifyFields : List (String × Json) → String
  | [] => ""
  | [kv] => "\"" ++ kv.1 ++ "\":" ++ Json.stringify kv.2
  | kv :: rest => "\"" ++ kv.1 ++ "\":" ++ Json.stringify kv.2 ++ "," ++ Json.stringifyFields rest

end

/-- Models `JSON.stringify(options.body)` where `options.body` may be absent:
the host encoder maps `undefined` to `undefined`, so an absent body stays
absent in the request descriptor. -/
def jsonStringifyOpt : Option Json → Option String
  | none => none
  | some j => some j.stringify

/-- `IAPIOptions` of `types.ts`: the merged per-call options handed to the
internal dispatch routine. Absent optional fields are `none`. -/
structure IAPIOptions where
  path : Option String := none
  query : Option TQuery := none
  method : Method
  headers : Option THeaders := none
  body : Option Json := none
  credentials : Option Credentials := none

/-- `TDefaultAPIOptions` of `types.ts` (no `path`, no `body`, no `method`):
what the client constructor accepts and stores. -/
structure TDefaultAPIOptions where
  query : Option TQuery := none
  headers : Option THeaders := none
  credentials : Option Credentials := none

/-- `TGetOptions` / `TDeleteOptions` / `TNoBodyAPIOptions`: public per-call
options without a body. -/
structure TNoBodyAPIOptions where
  path : Option String := none
  query : Option TQuery := none
  headers : Option THeaders := none
  credentials : Option Credentials := none

/-- `TPostOptions` / `TPutOptions`: public per-call options with a required body. -/
structure TBodyAPIOptions where
  path : Option String := none
  query : Option TQuery := none
  headers : Option THeaders := none
  credentials : Option Credentials := none
  body : Json

/-- The `APIClient` instance state: the two private fields set by the
constructor and never reassigned. -/
structure APIClient where
  baseUrl : String
  defaultOptions : Option TDefaultAPIOptions := none

/-- `#createQueryPairs`: `Object.entries(queryRecord).map(([key, value]) =>
`key=value`)`. -/
def createQueryPairs (queryRecord : TQuery) : List String :=
  queryRecord.map (fun kv => kv.1 ++ "=" ++ kv.2)

/-- `#createQueryString`, transcribed faithfully: note that when a default
query exists the source rebinds `optionQueryPairs` (not `defaultQueryPairs`,
which stays empty), so the per-call pairs are discarded in that case. -/
def createQueryString (c : APIClient) (queryRecord : Option TQuery) : String :=
  let optionQueryPairs : List String :=
    match queryRecord with
    | some q => createQueryPairs q
    | none => []
  let defaultQueryPairs : List String := []
  let optionQueryPairs : List String :=
    match c.defaultOptions.bind (fun d => d.query) with
    | some q => createQueryPairs q
    | none => optionQueryPairs
  let queryPairs := optionQueryPairs ++ defaultQueryPairs
  if queryPairs.length = 0 then "" else "?" ++ String.intercalate "&" queryPairs

/-- The default headers' entry list:
`this.#defaultOptions?.headers !== undefined ? this.#defaultOptions.headers.entries() : []`. -/
def defaultHeaderEntries (c : APIClient) : THeaders :=
  match c.defaultOptions.bind (fun d => d.headers) with
  | some h => h
  | none => []

/-- The per-call headers' entry list:
`options.headers !== undefined ? options.headers : []`. -/
def callHeaderEntries (options : IAPIOptions) : THeaders :=
  match options.headers with
  | some h => h
  | none => []

/-- `#applyOptions`: merge the default options with the per-call options into
the config object `{ method, headers, credentials }` spread into the fetch
call. An empty combined header list yields `headers: undefined`. -/
def applyOptions (c : APIClient) (options : IAPIOptions) : IAPIOptions :=
  let headersInit := defaultHeaderEntries c ++ callHeaderEntries options
  let headers := if headersInit.length > 0 then some headersInit else none
  let credentials :=
    match options.credentials with
    | some cr => some cr
    | none => c.defaultOptions.bind (fun d => d.credentials)
  { method := options.method, headers := headers, credentials := credentials }

/-- The request descriptor handed to the transport:
`{ ...config, body: JSON.stringify(options.body) }`. -/
structure RequestInit where
  method : Method
  headers : Option THeaders := none
  credentials : Option Credentials := none
  body : Option String := none

/-- A transport response: the status, the value of the `Content-Type` header
(`res.headers.get("Content-Type")`), and the outcome awaiting `res.json()`
would produce (`Except.error` when the body read would throw). -/
structure FetchResponse (ε : Type) where
  status : Nat
  contentType : Option String
  jsonResult : Except ε Json

/-- The `TAPIResult` discriminated union of `types.ts`, one constructor per
variant. -/
inductive TAPIResult (ε : Type) where
  | ok (data : Json)
  | created (data : Json)
  | badRequest
  | unauthorized
  | notFound
  | serverError
  | unknown (statusCode : Nat)
  | clientError (err : ε)

/-- The `code` discriminant of each result variant, per `types.ts`. -/
def TAPIResult.code {ε : Type} : TAPIResult ε → Int
  | .ok _ => 200
  | .created _ => 201
  | .badRequest => 400
  | .unauthorized => 401
  | .notFound => 404
  | .serverError => 500
  | .unknown _ => 0
  | .clientError _ => -1

/-- The `name` discriminant of each result variant, per `types.ts`. -/
def TAPIResult.variantName {ε : Type} : TAPIResult ε → String
  | .ok _ => "ok"
  | .created _ => "created"
  | .badRequest => "bad request"
  | .unauthorized => "unauthorized"
  | .notFound => "not found"
  | .serverError => "server error"
  | .unknown _ => "unknown"
  | .clientError _ => "client error"

/-- The `data` payload of a result, present exactly on the ok/created variants. -/
def TAPIResult.dataField {ε : Type} : TAPIResult ε → Option Json
  | .ok d => some d
  | .created d => some d
  | _ => none

/-- The path used in the assembled URL: `options.path` when truthy, else the
empty string (an empty-string path and an absent path coincide). -/
def requestPath (options : IAPIOptions) : String :=
  match options.path with
  | some p => if p = "" then "" else p
  | none => ""

/-- The URL handed to the transport: `${this.#baseUrl}${path}${query}`. -/
def requestUrl (c : APIClient) (options : IAPIOptions) : String :=
  c.baseUrl ++ requestPath options ++ createQueryString c options.query

/-- The request descriptor handed to the transport:
`{ ...this.#applyOptions(options), body: JSON.stringify(options.body) }`. -/
def requestInitOf (c : APIClient) (options : IAPIOptions) : RequestInit :=
  let config := applyOptions c options
  { method := config.method
    headers := config.headers
    credentials := config.credentials
    body := jsonStringifyOpt options.body }

/-- The response-classification tail of `#apiCall`: `data` defaults to the
empty object, is overwritten by the JSON body read when the content type is
exactly `application/json` (a throwing read is caught into the client-error
variant), and then the status code selects the variant. -/
def classifyResponse {ε : Type} (res : FetchResponse ε) : TAPIResult ε :=
  match (if res.contentType = some "application/json"
          then res.jsonResult
          else Except.ok (Json.obj [])) with
  | .error err => .clientError err
  | .ok data =>
    if res.status = 200 then .ok data
    else if res.status = 201 then .created data
    else if res.status = 400 then .badRequest
    else if res.status = 401 then .unauthorized
    else if res.status = 404 then .notFound
    else if res.status = 500 then .serverError
    else .unknown res.status

/-- `#apiCall`: assemble URL and descriptor, invoke the transport, classify;
any value thrown by the transport or by the body read is caught and returned
as the client-error variant. -/
def apiCall {ε : Type} (transport : String → RequestInit → Except ε (FetchResponse ε))
    (c : APIClient) (options : IAPIOptions) : TAPIResult ε :=
  match transport (requestUrl c options) (requestInitOf c options) with
  | .error err => .clientError err
  | .ok res => classifyResponse res

/-- Lift public no-body options into `IAPIOptions`, stamping the method:
`{ method, ...options }`. -/
def IAPIOptions.ofNoBody (m : Method) (options : Option TNoBodyAPIOptions) : IAPIOptions :=
  match options with
  | some o =>
    { method := m, path := o.path, query := o.query
      headers := o.headers, credentials := o.credentials }
  | none => { method := m }

/-- Lift public body-carrying options into `IAPIOptions`, stamping the method. -/
def IAPIOptions.ofBody (m : Method) (o : TBodyAPIOptions) : IAPIOptions :=
  { method := m, path := o.path, query := o.query
    headers := o.headers, credentials := o.credentials, body := some o.body }

/-- The public `get` entry point. -/
def APIClient.get {ε : Type} (transport : String → RequestInit → Except ε (FetchResponse ε))
    (c : APIClient) (options : Option TNoBodyAPIOptions) : TAPIResult ε :=
  apiCall transport c (IAPIOptions.ofNoBody Method.get options)

/-- The public `post` entry point. -/
def APIClient.post {ε : Type} (transport : String → RequestInit → Except ε (FetchResponse ε))
    (c : APIClient) (options : TBodyAPIOptions) : TAPIResult ε :=
  apiCall transport c (IAPIOptions.ofBody Method.post options)

/-- The public `put` entry point. -/
def APIClient.put {ε : Type} (transport : String → RequestInit → Except ε (FetchResponse ε))
    (c : APIClient) (options : TBodyAPIOptions) : TAPIResult ε :=
  apiCall transport c (IAPIOptions.ofBody Method.put options)

/-- The public `delete` entry point. -/
def APIClient.delete {ε : Type} (transport : String → RequestInit → Except ε (FetchResponse ε))
    (c : APIClient) (options : Option TNoBodyAPIOptions) : TAPIResult ε :=
  apiCall transport c (IAPIOptions.ofNoBody Method.delete options)

/-- State-passing form of the dispatch: the body of `#apiCall` contains no
assignment to `#baseUrl` or `#defaultOptions`, so the instance state after a
call is the instance state before it. -/
def apiCallSt {ε : Type} (transport : String → RequestInit → Except ε (FetchResponse ε))
    (c : APIClient) (options : IAPIOptions) : TAPIResult ε × APIClient :=
  (apiCall transport c options, c)

/-! Helper lemmas about the dispatch routine. -/

/-- When the transport returns a response, the call is its classification. -/
theorem apiCall_of_ok {ε : Type} (transport : String → RequestInit → Except ε (FetchResponse ε))
    (c : APIClient) (options : IAPIOptions) (res : FetchResponse ε)
    (h : transport (requestUrl c options) (requestInitOf c options) = Except.ok res) :
    apiCall transport c options = classifyResponse res := by
  unfold apiCall
  rw [h]

/-- A throwing body read on a declared-JSON response classifies as the
client-error variant carrying the thrown value. -/
theorem classifyResponse_json_error {ε : Type} (res : FetchResponse ε) (v : ε)
    (hct : res.contentType = some "application/json")
    (hjr : res.jsonResult = Except.error v) :
    classifyResponse res = TAPIResult.clientError v := by
  unfold classifyResponse
  rw [if_pos hct, hjr]

/-- When the data read produced a value, classification is the status-code
case split of the source. -/
theorem classifyResponse_parsed {ε : Type} (res : FetchResponse ε) (data : Json)
    (hdata : (if res.contentType = some "application/json" then res.jsonResult
              else Except.ok (Json.obj [])) = Except.ok data) :
    classifyResponse res =
      (if res.status = 200 then TAPIResult.ok data
       else if res.status = 201 then TAPIResult.created data
       else if res.status = 400 then TAPIResult.badRequest
       else if res.status = 401 then TAPIResult.unauthorized
       else if res.status = 404 then TAPIResult.notFound
       else if res.status = 500 then TAPIResult.serverError
       else TAPIResult.unknown res.status) := by
  unfold classifyResponse
  rw [hdata]

/-- Classification yields the client-error variant precisely when the
response declared JSON content and its body read threw that value. -/
theorem classifyResponse_clientError_iff {ε : Type} (res : FetchResponse ε) (v : ε) :
    classifyResponse res = TAPIResult.clientError v
      ↔ res.contentType = some "application/json" ∧ res.jsonResult = Except.error v := by
  by_cases hct : res.contentType = some "application/json"
  · rcases hjr : res.jsonResult with e | j
    · rw [classifyResponse_json_error res e hct hjr]
      constructor
      · intro h
        injection h with he
        exact ⟨hct, by rw [he]⟩
      · intro h
        injection h.2 with he
        rw [he]
    · rw [classifyResponse_parsed res j (by rw [if_pos hct, hjr])]
      constructor
      · intro h
        exfalso
        split_ifs at h
      · intro h
        exact Except.noConfusion h.2
  · rw [classifyResponse_parsed res (Json.obj []) (by rw [if_neg hct])]
    constructor
    · intro h
      exfalso
      split_ifs at h
    · intro h
      exact absurd h.1 hct

/-! Claim theorems. -/

/-- C1: counter-evidence at a concrete input. Against a client whose default
query is b=2, a call whose query is a=1 builds the query string "?b=2": the
per-call pairs are discarded instead of being concatenated first as claimed.
The claim matches the routine's documented intent; the source's rebinding of
optionQueryPairs (leaving defaultQueryPairs forever empty) is the slip. -/
theorem C1_query_merge_failing_input :
    createQueryString
        { baseUrl := "/foo", defaultOptions := some { query := some [("b", "2")] } }
        (some [("a", "1")]) = "?b=2"
      ∧ ("?b=2" : String) ≠ "?a=1&b=2" :=
  ⟨rfl, by decide⟩

/-- C2: counterexample to the claim as stated. A transport response with
status 200 that declares JSON content but whose body read throws yields the
client-error variant (code -1), not the ok variant, so the result is not
determined solely by the status code. -/
theorem C2_counterexample :
    apiCall (ε := String)
        (fun _ _ => Except.ok
          { status := 200, contentType := some "application/json",
            jsonResult := Except.error "bad json" })
        { baseUrl := "/foo" } { method := Method.get }
      = TAPIResult.clientError "bad json"
    ∧ (TAPIResult.clientError "bad json" : TAPIResult String).code ≠ 200 :=
  ⟨rfl, by decide⟩

/-- C2 (amended): for every client, per-call options (hence every verb) and
transport response, provided the JSON body read does not throw when the
content type is exactly application/json, the result variant is determined by
the status code alone: 200 to ok, 201 to created, 400 to bad request, 401 to
unauthorized, 404 to not found, 500 to server error, and any other status to
the unknown variant carrying the actual status code. -/
theorem C2_status_classification {ε : Type}
    (transport : String → RequestInit → Except ε (FetchResponse ε))
    (c : APIClient) (options : IAPIOptions) (res : FetchResponse ε)
    (hres : transport (requestUrl c options) (requestInitOf c options) = Except.ok res)
    (hjson : res.contentType = some "application/json" → ∃ j, res.jsonResult = Except.ok j) :
    ((res.status = 200 → (apiCall transport c options).code = 200
        ∧ (apiCall transport c options).variantName = "ok")
    ∧ (res.status = 201 → (apiCall transport c options).code = 201
        ∧ (apiCall transport c options).variantName = "created")
    ∧ (res.status = 400 → apiCall transport c options = TAPIResult.badRequest)
    ∧ (res.status = 401 → apiCall transport c options = TAPIResult.unauthorized)
    ∧ (res.status = 404 → apiCall transport c options = TAPIResult.notFound)
    ∧ (res.status = 500 → apiCall transport c options = TAPIResult.serverError)
    ∧ (res.status ∉ ([200, 201, 400, 401, 404, 500] : List Nat) →
        apiCall transport c options = TAPIResult.unknown res.status)) := by
  have hcall := apiCall_of_ok transport c options res hres
  obtain ⟨data, hdata⟩ :
      ∃ data, (if res.contentType = some "application/json" then res.jsonResult
               else Except.ok (Json.obj [])) = Except.ok data := by
    by_cases hct : res.contentType = some "application/json"
    · obtain ⟨j, hj⟩ := hjson hct
      exact ⟨j, by rw [if_pos hct, hj]⟩
    · exact ⟨Json.obj [], by rw [if_neg hct]⟩
  have hclass := classifyResponse_parsed res data hdata
  rw [hcall, hclass]
  refine ⟨?_, ?_, ?_, ?_, ?_, ?_, ?_⟩ <;> intro h
  · simp [h, TAPIResult.code, TAPIResult.variantName]
  · simp [h, TAPIResult.code, TAPIResult.variantName]
  · simp [h]
  · simp [h]
  · simp [h]
  · simp [h]
  · simp only [List.mem_cons, List.not_mem_nil, or_false, not_or] at h
    simp [h.1, h.2.1, h.2.2.1, h.2.2.2.1, h.2.2.2.2.1, h.2.2.2.2.2]

/-- C2 witness: a 418 response with no declared content type through a get
call maps to the unknown variant carrying 418. -/
theorem C2_status_classification_witness :
    apiCall (ε := Unit)
        (fun _ _ => Except.ok
          { status := 418, contentType := none, jsonResult := Except.ok Json.null })
        { baseUrl := "/foo" } { method := Method.get }
      = TAPIResult.unknown 418 := by
  have h := C2_status_classification (ε := Unit)
      (fun _ _ => Except.ok
        { status := 418, contentType := none, jsonResult := Except.ok Json.null })
      { baseUrl := "/foo" } { method := Method.get }
      { status := 418, contentType := none, jsonResult := Except.ok Json.null }
      rfl (fun hct => nomatch hct)
  exact h.2.2.2.2.2.2 (by decide)

/-- C3: any value thrown by the transport invocation or by the JSON body read
is caught (never rethrown — the call is total) and returned exactly as the
client-error variant carrying the thrown value unmodified; and these two
sources are the only way a client-error result arises. -/
theorem C3_client_error_path {ε : Type}
    (transport : String → RequestInit → Except ε (FetchResponse ε))
    (c : APIClient) (options : IAPIOptions) :
    ((∀ v, transport (requestUrl c options) (requestInitOf c options) = Except.error v →
        apiCall transport c options = TAPIResult.clientError v)
    ∧ (∀ res v, transport (requestUrl c options) (requestInitOf c options) = Except.ok res →
        res.contentType = some "application/json" → res.jsonResult = Except.error v →
        apiCall transport c options = TAPIResult.clientError v)
    ∧ (∀ v, apiCall transport c options = TAPIResult.clientError v →
        transport (requestUrl c options) (requestInitOf c options) = Except.error v
        ∨ ∃ res, transport (requestUrl c options) (requestInitOf c options) = Except.ok res
            ∧ res.contentType = some "application/json"
            ∧ res.jsonResult = Except.error v)) := by
  refine ⟨?_, ?_, ?_⟩
  · intro v hv
    unfold apiCall
    rw [hv]
  · intro res v hres hct hjr
    rw [apiCall_of_ok transport c options res hres]
    exact classifyResponse_json_error res v hct hjr
  · intro v hv
    rcases htr : transport (requestUrl c options) (requestInitOf c options) with w | res
    · left
      have h3 : apiCall transport c options = TAPIResult.clientError w := by
        unfold apiCall
        rw [htr]
      rw [h3] at hv
      injection hv with he
      rw [he]
    · right
      rw [apiCall_of_ok transport c options res htr] at hv
      obtain ⟨h1, h2⟩ := (classifyResponse_clientError_iff res v).mp hv
      exact ⟨res, rfl, h1, h2⟩

/-- C3 witness: a transport that throws the string "network down" yields the
client-error variant carrying exactly that value. -/
theorem C3_client_error_path_witness :
    apiCall (ε := String) (fun _ _ => Except.error "network down")
        { baseUrl := "/foo" } { method := Method.get }
      = TAPIResult.clientError "network down" :=
  (C3_client_error_path (fun _ _ => Except.error "network down")
      { baseUrl := "/foo" } { method := Method.get }).1 "network down" rfl

/-- C4: for a 200 or 201 response, the data payload is the JSON-parsed body
exactly when the content-type header value is exactly the string
application/json, and the empty structural value (empty object) otherwise —
in particular a parameter suffix such as a charset defeats the match. -/
theorem C4_data_gate {ε : Type}
    (transport : String → RequestInit → Except ε (FetchResponse ε))
    (c : APIClient) (options : IAPIOptions) (res : FetchResponse ε)
    (hres : transport (requestUrl c options) (requestInitOf c options) = Except.ok res)
    (hstatus : res.status = 200 ∨ res.status = 201) :
    ((∀ j, res.contentType = some "application/json" → res.jsonResult = Except.ok j →
        (apiCall transport c options).dataField = some j)
    ∧ (res.contentType ≠ some "application/json" →
        (apiCall transport c options).dataField = some (Json.obj []))) := by
  have hcall := apiCall_of_ok transport c options res hres
  constructor
  · intro j hct hjr
    rw [hcall, classifyResponse_parsed res j (by rw [if_pos hct, hjr])]
    rcases hstatus with h | h <;> simp [h, TAPIResult.dataField]
  · intro hct
    rw [hcall, classifyResponse_parsed res (Json.obj []) (by rw [if_neg hct])]
    rcases hstatus with h | h <;> simp [h, TAPIResult.dataField]

/-- C4 witness: a 200 response whose content type is
"application/json; charset=utf-8" (not an exact match) yields the empty
object, not the parsed body. -/
theorem C4_data_gate_witness :
    (apiCall (ε := Unit)
        (fun _ _ => Except.ok
          { status := 200, contentType := some "application/json; charset=utf-8",
            jsonResult := Except.ok (Json.str "ignored") })
        { baseUrl := "/foo" } { method := Method.get }).dataField
      = some (Json.obj []) := by
  have h := C4_data_gate (ε := Unit)
      (fun _ _ => Except.ok
        { status := 200, contentType := some "application/json; charset=utf-8",
          jsonResult := Except.ok (Json.str "ignored") })
      { baseUrl := "/foo" } { method := Method.get }
      { status := 200, contentType := some "application/json; charset=utf-8",
        jsonResult := Except.ok (Json.str "ignored") }
      rfl (Or.inl rfl)
  exact h.2 (by decide)

/-- C5: the outgoing header collection is built from the default headers'
entries followed by the per-call headers' entries, in that order; when the
combined list is empty the headers field is omitted (none) rather than sent
as an empty-but-present collection; and the descriptor carrying these
headers is exactly what the transport receives. -/
theorem C5_header_merge (c : APIClient) (options : IAPIOptions) :
    ((defaultHeaderEntries c ++ callHeaderEntries options ≠ [] →
        (requestInitOf c options).headers
          = some (defaultHeaderEntries c ++ callHeaderEntries options))
    ∧ (defaultHeaderEntries c ++ callHeaderEntries options = [] →
        (requestInitOf c options).headers = none)
    ∧ apiCall (ε := RequestInit) (fun _ descriptor => Except.error descriptor) c options
        = TAPIResult.clientError (requestInitOf c options)) := by
  refine ⟨?_, ?_, rfl⟩
  · intro h
    show (if (defaultHeaderEntries c ++ callHeaderEntries options).length > 0
            then some (defaultHeaderEntries c ++ callHeaderEntries options)
            else none)
        = some (defaultHeaderEntries c ++ callHeaderEntries options)
    rw [if_pos (List.length_pos.mpr h)]
  · intro h
    show (if (defaultHeaderEntries c ++ callHeaderEntries options).length > 0
            then some (defaultHeaderEntries c ++ callHeaderEntries options)
            else none)
        = none
    rw [h]
    rfl

/-- C5 witness: a client constructed with the single default header
content-type: application/json and a call with no per-call headers dispatches
that single entry. -/
theorem C5_header_merge_witness :
    (requestInitOf
        { baseUrl := "/foo",
          defaultOptions := some { headers := some [("content-type", "application/json")] } }
        { method := Method.get }).headers
      = some [("content-type", "application/json")] :=
  (C5_header_merge
      { baseUrl := "/foo",
        defaultOptions := some { headers := some [("content-type", "application/json")] } }
      { method := Method.get }).1 (by decide)

/-- C6: the descriptor handed to the transport carries as its body the host
JSON encoder applied to the options' body field — even for the body-less
get/delete lifts, where the encoder receives the absent value (and the host
encoder maps the absent value to the absent value again). -/
theorem C6_body_serialization (c : APIClient) (options : IAPIOptions)
    (m : Method) (noBody : Option TNoBodyAPIOptions) :
    ((requestInitOf c options).body = jsonStringifyOpt options.body
    ∧ (requestInitOf c (IAPIOptions.ofNoBody m noBody)).body = jsonStringifyOpt none
    ∧ apiCall (ε := Option String) (fun _ descriptor => Except.error descriptor.body) c options
        = TAPIResult.clientError (jsonStringifyOpt options.body)) := by
  refine ⟨rfl, ?_, rfl⟩
  cases noBody <;> rfl

/-- C7: the URL handed to the transport is the base URL, then the path
(options.path when present, the empty string otherwise), then the query
string; concretely, base /foo with path /bar dispatches to /foo/bar, and
base /foo with no path and no query dispatches to exactly /foo. -/
theorem C7_url_assembly (c : APIClient) (options : IAPIOptions) :
    (apiCall (ε := String) (fun u _ => Except.error u) c options
        = TAPIResult.clientError
            (c.baseUrl ++ options.path.getD "" ++ createQueryString c options.query)
    ∧ requestUrl { baseUrl := "/foo" } { method := Method.get, path := some "/bar" } = "/foo/bar"
    ∧ requestUrl { baseUrl := "/foo" } { method := Method.get } = "/foo") := by
  refine ⟨?_, rfl, rfl⟩
  have hpath : requestPath options = options.path.getD "" := by
    unfold requestPath
    cases options.path with
    | none => rfl
    | some p =>
      show (if p = "" then "" else p) = p
      by_cases hp : p = ""
      · rw [if_pos hp]
        exact hp.symm
      · rw [if_neg hp]
  show TAPIResult.clientError (requestUrl c options) = _
  unfold requestUrl
  rw [hpath]

/-- C8: credentials resolution — the per-call credentials win when present,
otherwise the default credentials stored at construction are used, otherwise
the field is omitted (none); and the descriptor carrying the resolved
credentials is exactly what the transport receives. -/
theorem C8_credentials_resolution (c : APIClient) (options : IAPIOptions) :
    ((∀ cr, options.credentials = some cr →
        (requestInitOf c options).credentials = some cr)
    ∧ (options.credentials = none →
        ∀ d, c.defaultOptions = some d →
          (requestInitOf c options).credentials = d.credentials)
    ∧ (options.credentials = none → c.defaultOptions = none →
        (requestInitOf c options).credentials = none)
    ∧ apiCall (ε := Option Credentials)
          (fun _ descriptor => Except.error descriptor.credentials) c options
        = TAPIResult.clientError ((requestInitOf c options).credentials)) := by
  refine ⟨?_, ?_, ?_, rfl⟩
  · intro cr h
    simp [requestInitOf, applyOptions, h]
  · intro h d hd
    simp [requestInitOf, applyOptions, h, hd]
  · intro h hd
    simp [requestInitOf, applyOptions, h, hd]

/-- C8 witness: per-call credentials include override a default of omit. -/
theorem C8_credentials_resolution_witness :
    (requestInitOf
        { baseUrl := "/foo", defaultOptions := some { credentials := some Credentials.omitCred } }
        { method := Method.get, credentials := some Credentials.includeCred }).credentials
      = some Credentials.includeCred :=
  (C8_credentials_resolution
      { baseUrl := "/foo", defaultOptions := some { credentials := some Credentials.omitCred } }
      { method := Method.get, credentials := some Credentials.includeCred }).1
    Credentials.includeCred rfl

/-- C9: the JSON body read is awaited before status classification, so a
declared-JSON response whose body read throws produces the client-error
variant carrying the parse exception regardless of the status code — in
particular for 400, 401, 404 and 500 — never the status-mapped variant. -/
theorem C9_parse_precedes_status {ε : Type}
    (transport : String → RequestInit → Except ε (FetchResponse ε))
    (c : APIClient) (options : IAPIOptions) (res : FetchResponse ε) (v : ε)
    (hres : transport (requestUrl c options) (requestInitOf c options) = Except.ok res)
    (hct : res.contentType = some "application/json")
    (hjr : res.jsonResult = Except.error v) :
    apiCall transport c options = TAPIResult.clientError v
    ∧ (apiCall transport c options).code = -1 := by
  have hcall := apiCall_of_ok transport c options res hres
  rw [hcall, classifyResponse_json_error res v hct hjr]
  exact ⟨rfl, rfl⟩

/-- C9 witness: a 404 response declaring JSON whose body read throws yields
the client-error variant carrying that exception. -/
theorem C9_parse_precedes_status_witness :
    apiCall (ε := String)
        (fun _ _ => Except.ok
          { status := 404, contentType := some "application/json",
            jsonResult := Except.error "unexpected token" })
        { baseUrl := "/foo" } { method := Method.get }
      = TAPIResult.clientError "unexpected token" :=
  (C9_parse_precedes_status (ε := String)
      (fun _ _ => Except.ok
        { status := 404, contentType := some "application/json",
          jsonResult := Except.error "unexpected token" })
      { baseUrl := "/foo" } { method := Method.get }
      { status := 404, contentType := some "application/json",
        jsonResult := Except.error "unexpected token" }
      "unexpected token" rfl rfl rfl).1

/-- C10: the dispatch routine mutates no instance state — in state-passing
form the instance after a call equals the instance before it — hence a second
call through the same instance with identical options against the same
deterministic transport yields the identical result. -/
theorem C10_no_hidden_state {ε : Type}
    (transport : String → RequestInit → Except ε (FetchResponse ε))
    (c : APIClient) (options : IAPIOptions) :
    ((apiCallSt transport c options).2 = c
    ∧ (apiCallSt transport (apiCallSt transport c options).2 options).1
        = (apiCallSt transport c options).1) :=
  ⟨rfl, rfl⟩
